import Mathlib

/-!
# MySQL binding for the Lua scripting runtime (`mysql_lib.cpp`)

A shallow embedding of `code/components/citizen-scripting-lua/src/mysql_lib.cpp`.

* A Lua call is a pure function from the userdata it is invoked on (and its
  arguments) to an `Outcome`: the values returned or the error raised by
  `luaL_error`, the userdata after the call, and the native client calls issued.
* A Lua table is an association list from keys to non-nil values; `nil` is `none`.
* C strings, Lua strings and column data are `String`s, one `Char` per byte.
* The MySQL client library and the C library are outside the repository. The
  result set follows the client library's buffered `MYSQL_RES` (field array, row
  list, row cursor); what the library answers to a session call is an explicit
  `NativeReply` argument.
-/

namespace MySQLLib

/-! ## Machine integers -/

/-- Conversion to a two's-complement signed integer of `w` bits. -/
def wrapSigned (w : Nat) (n : Int) : Int :=
  (n + 2 ^ (w - 1)) % 2 ^ w - 2 ^ (w - 1)

/-- The cast `(lua_Integer)x`; `lua_Integer` is a signed 64-bit integer. -/
def to_lua_Integer (n : Int) : Int := wrapSigned 64 n

/-- A value stored into a C `int` (32 bits). -/
def to_int (n : Int) : Int := wrapSigned 32 n

/-- The cast `(unsigned int)x`. -/
def to_unsigned_int (n : Int) : Int := n % 2 ^ 32

def LLONG_MAX : Int := 9223372036854775807

def LLONG_MIN : Int := -9223372036854775808

/-! ## The C library: `atoll`, `atof` -/

/-- The C `isspace` in the "C" locale. -/
def isspace (c : Char) : Bool :=
  c = ' ' || c = '\t' || c = '\n' || c = '\x0b' || c = '\x0c' || c = '\r'

/-- The C `isdigit`. -/
def isdigit (c : Char) : Bool :=
  decide ('0' ≤ c) && decide (c ≤ '9')

/-- The digit loop of `strtoll` in base 10: consumes decimal digits while there
are any, accumulating their value, and stops at the first other character (the
terminating NUL included). -/
def strtoll_digits : List Char → Nat → Nat
  | [], acc => acc
  | c :: cs, acc => if isdigit c then strtoll_digits cs (10 * acc + (c.toNat - 48)) else acc

/-- The range handling of `strtoll`: a value outside `long long` is replaced by
`LLONG_MIN` or `LLONG_MAX`. -/
def strtoll_clamp (v : Int) : Int :=
  if v < LLONG_MIN then LLONG_MIN else if LLONG_MAX < v then LLONG_MAX else v

/-- The C library's `atoll(s)`, which is `strtoll(s, NULL, 10)`: skip leading
white space, read an optional sign, then the decimal digits that follow; no
digits give 0. ISO C leaves an unrepresentable value undefined; the common C
libraries return what `strtoll` returns, which is what is modelled. -/
def atoll (s : List Char) : Int :=
  match s.dropWhile isspace with
  | '-' :: rest => strtoll_clamp (-(strtoll_digits rest 0 : Int))
  | '+' :: rest => strtoll_clamp (strtoll_digits rest 0 : Int)
  | rest => strtoll_clamp (strtoll_digits rest 0 : Int)

/-- The C string a `char*` designates: the bytes up to the first NUL. -/
def c_str (s : List Char) : List Char :=
  s.takeWhile (fun c => c != '\x00')

/-- The `double` returned by `atof`. Floating point arithmetic is not
interpreted: the value is kept as the C string that `atof` was applied to. -/
structure Double where
  atof : List Char
  deriving DecidableEq, Repr

/-! ## Lua values and tables -/

/-- Keys used by the binding: strings (`lua_pushstring`) and integers
(`lua_pushinteger`, `lua_rawseti`). -/
inductive LuaKey where
  | str (s : String)
  | int (i : Int)
  deriving DecidableEq, Repr

/-- Non-nil scalar Lua values pushed by the binding. -/
inductive LuaValue where
  | boolean (b : Bool)
  | integer (i : Int)
  | number (d : Double)
  | string (s : String)
  deriving DecidableEq, Repr

/-- The value `t[k]` bound to `k`, `none` for nil. -/
def lua_gettable {V : Type} : List (LuaKey × V) → LuaKey → Option V
  | [], _ => none
  | (k1, v) :: t, k => if k1 = k then some v else lua_gettable t k

/-- The assignment `t[k] = v` of `lua_settable`. Assigning nil removes the binding. -/
def lua_settable {V : Type} (t : List (LuaKey × V)) (k : LuaKey) (v : Option V) :
    List (LuaKey × V) :=
  match v with
  | none => t.filter (fun e => !decide (e.1 = k))
  | some x => (k, x) :: t.filter (fun e => !decide (e.1 = k))

/-- The assignment `t[n] = v` of `lua_rawseti(L, idx, n)`, with a non-nil value on the stack. -/
def lua_rawseti {V : Type} (t : List (LuaKey × V)) (n : Int) (v : V) : List (LuaKey × V) :=
  lua_settable t (LuaKey.int n) (some v)

/-- The Lua string pushed by `lua_pushlstring(L, s, len)`: the first `len` bytes at `s`. -/
def lua_pushlstring (s : String) (len : Nat) : LuaValue :=
  LuaValue.string (String.mk (s.data.take len))

/-- A row as returned to the script. -/
abbrev RowTable := List (LuaKey × LuaValue)

/-- The table returned by `fetch_all`: row tables under integer keys. -/
abbrev ResultsTable := List (LuaKey × RowTable)

/-! ## The MySQL client library: field types and buffered result sets -/

def MYSQL_TYPE_DECIMAL : Int := 0
def MYSQL_TYPE_TINY : Int := 1
def MYSQL_TYPE_SHORT : Int := 2
def MYSQL_TYPE_LONG : Int := 3
def MYSQL_TYPE_FLOAT : Int := 4
def MYSQL_TYPE_DOUBLE : Int := 5
def MYSQL_TYPE_NULL : Int := 6
def MYSQL_TYPE_TIMESTAMP : Int := 7
def MYSQL_TYPE_LONGLONG : Int := 8
def MYSQL_TYPE_INT24 : Int := 9
def MYSQL_TYPE_DATE : Int := 10
def MYSQL_TYPE_TIME : Int := 11
def MYSQL_TYPE_DATETIME : Int := 12
def MYSQL_TYPE_YEAR : Int := 13
def MYSQL_TYPE_BIT : Int := 16
def MYSQL_TYPE_NEWDECIMAL : Int := 246
def MYSQL_TYPE_ENUM : Int := 247
def MYSQL_TYPE_SET : Int := 248
def MYSQL_TYPE_BLOB : Int := 252
def MYSQL_TYPE_VAR_STRING : Int := 253
def MYSQL_TYPE_STRING : Int := 254

/-- The members of `MYSQL_FIELD` that the binding reads. `type` is the
`enum enum_field_types` tag, read by the binding as an `int`. -/
structure MYSQL_FIELD where
  name : String
  type : Int
  length : Nat
  max_length : Nat
  flags : Nat
  deriving DecidableEq, Repr

/-- A `MYSQL_ROW`: one `char*` per column, `NULL` (`none`) for SQL NULL,
otherwise the column's bytes. -/
abbrev MYSQL_ROW := List (Option String)

/-- A buffered `MYSQL_RES` as built by `mysql_store_result`: the field array,
the list of all rows, and the row cursor, which is the list of rows not yet
fetched (`data_cursor` points into the row list). -/
structure MYSQL_RES where
  fields : List MYSQL_FIELD
  data : List MYSQL_ROW
  data_cursor : List MYSQL_ROW
  deriving DecidableEq, Repr

/-- The result set `mysql_store_result` hands back: cursor at the first row. -/
def mysql_store_result (fields : List MYSQL_FIELD) (data : List MYSQL_ROW) : MYSQL_RES :=
  { fields := fields, data := data, data_cursor := data }

def mysql_num_fields (res : MYSQL_RES) : Nat := res.fields.length

def mysql_fetch_fields (res : MYSQL_RES) : List MYSQL_FIELD := res.fields

def mysql_num_rows (res : MYSQL_RES) : Nat := res.data.length

/-- Client library `mysql_fetch_row` on a buffered result: the row under the
cursor, advancing the cursor; `NULL` at the end of the data. -/
def mysql_fetch_row (res : MYSQL_RES) : Option MYSQL_ROW × MYSQL_RES :=
  match res.data_cursor with
  | [] => (none, res)
  | row :: rest => (some row, { res with data_cursor := rest })

/-- Client library `mysql_data_seek`: put the cursor on row `offset`. -/
def mysql_data_seek (res : MYSQL_RES) (offset : Nat) : MYSQL_RES :=
  { res with data_cursor := res.data.drop offset }

/-- Client library `mysql_fetch_lengths`: the byte lengths of the columns of
the row fetched last (0 for a NULL column). -/
def mysql_fetch_lengths (row : MYSQL_ROW) : List Nat :=
  row.map (fun c => match c with
    | none => 0
    | some s => s.length)

/-- Native client calls, as recorded in an `Outcome`. A `MYSQL*` is its address. -/
inductive NativeCall where
  | mysql_init (ret : Nat)
  | mysql_real_connect (h : Option Nat) (host user password database : String) (port : Int)
  | mysql_error (h : Option Nat)
  | mysql_close (h : Option Nat)
  | mysql_ping (h : Option Nat)
  | mysql_select_db (h : Option Nat) (db_name : String)
  | mysql_query (h : Option Nat) (query : String)
  | mysql_store_result (h : Option Nat)
  | mysql_field_count (h : Option Nat)
  | mysql_affected_rows (h : Option Nat)
  | mysql_insert_id (h : Option Nat)
  | mysql_real_escape_string (h : Option Nat) (str : String)
  | mysql_free_result
  | mysql_fetch_row
  | mysql_num_fields
  | mysql_fetch_fields
  | mysql_fetch_lengths
  | mysql_data_seek (offset : Nat)
  | mysql_num_rows
  deriving DecidableEq, Repr

/-- What a Lua C function did: `ret` is the returned values or the message
raised by `luaL_error`, `state` the userdata after the call, `calls` the native
client calls issued, in order. -/
structure Outcome (σ ρ : Type) where
  ret : Except String ρ
  state : σ
  calls : List NativeCall

/-! ## Result handle -/

/-- The `struct MySQLResult`: the owned `MYSQL_RES*`, `none` for `nullptr`. -/
structure MySQLResult where
  result : Option MYSQL_RES
  deriving DecidableEq, Repr

/-- The destructor `~MySQLResult()`. -/
def MySQLResult.destructor (res : MySQLResult) : MySQLResult × List NativeCall :=
  match res.result with
  | some _ => ({ result := none }, [NativeCall.mysql_free_result])
  | none => (res, [])

/-- The `switch (field_type)` of `mysql_result_fetch` / `mysql_result_fetch_all`:
the value stored under the column name for a non-NULL column. -/
def name_value (field_type : Int) (s : String) (len : Nat) : LuaValue :=
  if field_type = MYSQL_TYPE_TINY ∨ field_type = MYSQL_TYPE_SHORT ∨
      field_type = MYSQL_TYPE_LONG ∨ field_type = MYSQL_TYPE_INT24 ∨
      field_type = MYSQL_TYPE_LONGLONG then
    LuaValue.integer (atoll s.data)
  else if field_type = MYSQL_TYPE_FLOAT ∨ field_type = MYSQL_TYPE_DOUBLE ∨
      field_type = MYSQL_TYPE_DECIMAL ∨ field_type = MYSQL_TYPE_NEWDECIMAL then
    LuaValue.number { atof := c_str s.data }
  else
    lua_pushlstring s len

/-- The pointer `row[i]`: the bytes of column `i`, `none` for `NULL`. -/
def row_at (row : MYSQL_ROW) (i : Nat) : Option String :=
  (row[i]?).join

/-- One iteration of `for (unsigned int i = 0; i < num_fields; i++)` in
`mysql_result_fetch` (lines 254-304) and `mysql_result_fetch_all` (lines
336-386): first the name key, then the key `i + 1`. -/
def fetch_column (fields : List MYSQL_FIELD) (row : MYSQL_ROW) (lengths : List Nat)
    (t : RowTable) (i : Nat) : RowTable :=
  match fields[i]? with
  | none => t
  | some field =>
    let t1 :=
      match row_at row i with
      | some s => lua_settable t (LuaKey.str field.name)
          (some (name_value field.type s (lengths.getD i 0)))
      | none => lua_settable t (LuaKey.str field.name) none
    match row_at row i with
    | some s => lua_settable t1 (LuaKey.int (i + 1)) (some (lua_pushlstring s (lengths.getD i 0)))
    | none => lua_settable t1 (LuaKey.int (i + 1)) none

/-- The row table built by `lua_createtable(L, 0, num_fields)` followed by the
column loop. -/
def row_table (num_fields : Nat) (fields : List MYSQL_FIELD) (row : MYSQL_ROW)
    (lengths : List Nat) : RowTable :=
  (List.range num_fields).foldl (fetch_column fields row lengths) []

/-- The Lua function `mysql_result_fetch`: `nil` (`none`) at the end of the data. -/
def mysql_result_fetch (res : MySQLResult) : Outcome MySQLResult (Option RowTable) :=
  match res.result with
  | none => { ret := .error "Invalid result object", state := res, calls := [] }
  | some r =>
    match mysql_fetch_row r with
    | (none, r1) =>
      { ret := .ok none, state := { result := some r1 }, calls := [NativeCall.mysql_fetch_row] }
    | (some row, r1) =>
      let num_fields := mysql_num_fields r1
      let fields := mysql_fetch_fields r1
      let lengths := mysql_fetch_lengths row
      { ret := .ok (some (row_table num_fields fields row lengths)),
        state := { result := some r1 },
        calls := [NativeCall.mysql_fetch_row, NativeCall.mysql_num_fields,
          NativeCall.mysql_fetch_fields, NativeCall.mysql_fetch_lengths] }

/-- The loop `while ((row = mysql_fetch_row(res->result)))` of
`mysql_result_fetch_all`, run over the rows from the cursor to the end of the
data. `row_count` is a C `int`: incremented beyond `INT_MAX` it wraps round to
`INT_MIN` (two's complement), which is what `to_int` does. -/
def fetch_all_loop (num_fields : Nat) (fields : List MYSQL_FIELD) :
    List MYSQL_ROW → Int → ResultsTable → ResultsTable
  | [], _, results_tbl => results_tbl
  | row :: rest, row_count, results_tbl =>
    let row_count1 := to_int (row_count + 1)
    let lengths := mysql_fetch_lengths row
    fetch_all_loop num_fields fields rest row_count1
      (lua_rawseti results_tbl row_count1 (row_table num_fields fields row lengths))

/-- The native calls of the `fetch_all` loop: a fetch and a length query per
row, and the fetch that finds the end of the data. -/
def fetch_all_calls : List MYSQL_ROW → List NativeCall
  | [] => [NativeCall.mysql_fetch_row]
  | _ :: rest => NativeCall.mysql_fetch_row :: NativeCall.mysql_fetch_lengths :: fetch_all_calls rest

/-- The Lua function `mysql_result_fetch_all`. -/
def mysql_result_fetch_all (res : MySQLResult) : Outcome MySQLResult ResultsTable :=
  match res.result with
  | none => { ret := .error "Invalid result object", state := res, calls := [] }
  | some r =>
    let r1 := mysql_data_seek r 0
    let num_fields := mysql_num_fields r1
    let fields := mysql_fetch_fields r1
    { ret := .ok (fetch_all_loop num_fields fields r1.data_cursor 0 []),
      state := { result := some { r1 with data_cursor := [] } },
      calls := [NativeCall.mysql_data_seek 0, NativeCall.mysql_num_fields,
        NativeCall.mysql_fetch_fields, NativeCall.mysql_num_rows] ++ fetch_all_calls r1.data_cursor }

/-- The Lua function `mysql_result_num_rows`. -/
def mysql_result_num_rows (res : MySQLResult) : Outcome MySQLResult Int :=
  match res.result with
  | none => { ret := .error "Invalid result object", state := res, calls := [] }
  | some r =>
    { ret := .ok (to_lua_Integer (mysql_num_rows r)), state := res,
      calls := [NativeCall.mysql_num_rows] }

/-- The Lua function `mysql_result_num_fields`. -/
def mysql_result_num_fields (res : MySQLResult) : Outcome MySQLResult Int :=
  match res.result with
  | none => { ret := .error "Invalid result object", state := res, calls := [] }
  | some r =>
    { ret := .ok (to_lua_Integer (mysql_num_fields r)), state := res,
      calls := [NativeCall.mysql_num_fields] }

/-- The `switch (fields[i].type)` of `mysql_result_field_info`. -/
def type_name (field_type : Int) : String :=
  if field_type = MYSQL_TYPE_TINY then "TINYINT"
  else if field_type = MYSQL_TYPE_SHORT then "SMALLINT"
  else if field_type = MYSQL_TYPE_LONG then "INT"
  else if field_type = MYSQL_TYPE_INT24 then "MEDIUMINT"
  else if field_type = MYSQL_TYPE_LONGLONG then "BIGINT"
  else if field_type = MYSQL_TYPE_DECIMAL ∨ field_type = MYSQL_TYPE_NEWDECIMAL then "DECIMAL"
  else if field_type = MYSQL_TYPE_FLOAT then "FLOAT"
  else if field_type = MYSQL_TYPE_DOUBLE then "DOUBLE"
  else if field_type = MYSQL_TYPE_BIT then "BIT"
  else if field_type = MYSQL_TYPE_TIMESTAMP then "TIMESTAMP"
  else if field_type = MYSQL_TYPE_DATE then "DATE"
  else if field_type = MYSQL_TYPE_TIME then "TIME"
  else if field_type = MYSQL_TYPE_DATETIME then "DATETIME"
  else if field_type = MYSQL_TYPE_YEAR then "YEAR"
  else if field_type = MYSQL_TYPE_STRING then "CHAR"
  else if field_type = MYSQL_TYPE_VAR_STRING then "VARCHAR"
  else if field_type = MYSQL_TYPE_BLOB then "BLOB"
  else if field_type = MYSQL_TYPE_SET then "SET"
  else if field_type = MYSQL_TYPE_ENUM then "ENUM"
  else if field_type = MYSQL_TYPE_NULL then "NULL"
  else "UNKNOWN"

/-- The descriptor table built for one field by `mysql_result_field_info`
(lines 436-522). -/
def field_descriptor (field : MYSQL_FIELD) : RowTable :=
  let t0 : RowTable := []
  let t1 := lua_settable t0 (LuaKey.str "name") (some (LuaValue.string field.name))
  let t2 := lua_settable t1 (LuaKey.str "type") (some (LuaValue.string (type_name field.type)))
  let t3 := lua_settable t2 (LuaKey.str "length")
    (some (LuaValue.integer (to_lua_Integer field.length)))
  let t4 := lua_settable t3 (LuaKey.str "max_length")
    (some (LuaValue.integer (to_lua_Integer field.max_length)))
  lua_settable t4 (LuaKey.str "flags") (some (LuaValue.integer (to_lua_Integer field.flags)))

/-- One iteration of the field loop of `mysql_result_field_info`. -/
def field_info_step (fields : List MYSQL_FIELD) (t : ResultsTable) (i : Nat) : ResultsTable :=
  match fields[i]? with
  | none => t
  | some field => lua_rawseti t (i + 1) (field_descriptor field)

/-- The Lua function `mysql_result_field_info`. -/
def mysql_result_field_info (res : MySQLResult) : Outcome MySQLResult ResultsTable :=
  match res.result with
  | none => { ret := .error "Invalid result object", state := res, calls := [] }
  | some r =>
    let num_fields := mysql_num_fields r
    let fields := mysql_fetch_fields r
    { ret := .ok ((List.range num_fields).foldl (field_info_step fields) []),
      state := res,
      calls := [NativeCall.mysql_num_fields, NativeCall.mysql_fetch_fields] }

/-- The Lua function `mysql_result_gc`, the `__gc` metamethod. -/
def mysql_result_gc (res : MySQLResult) : Outcome MySQLResult Unit :=
  { ret := .ok (), state := res.destructor.1, calls := res.destructor.2 }

/-- The handle after `k` invocations of the `__gc` metamethod, with the native
calls issued. -/
def result_gc_times : Nat → MySQLResult → MySQLResult × List NativeCall
  | 0, res => (res, [])
  | k + 1, res =>
    let o := mysql_result_gc res
    let rest := result_gc_times k o.state
    (rest.1, o.calls ++ rest.2)

/-! ## Connection handle -/

/-- The `struct MySQLConnection`: the owned `MYSQL*` (`none` for `nullptr`) and
the `connected` flag. -/
structure MySQLConnection where
  handle : Option Nat
  connected : Bool
  deriving DecidableEq, Repr

/-- What the native client library answers during one call of the binding.
`mysql_init` is the address of the context it allocates, `mysql_real_connect`
tells whether the session was opened, `mysql_store_result` is the buffered
result (`none` for `NULL`). -/
structure NativeReply where
  mysql_init : Nat
  mysql_real_connect : Bool
  mysql_error : String
  mysql_ping : Int
  mysql_select_db : Int
  mysql_query : Int
  mysql_store_result : Option (List MYSQL_FIELD × List MYSQL_ROW)
  mysql_field_count : Nat
  mysql_affected_rows : Nat
  mysql_insert_id : Nat
  mysql_real_escape_string : String → String

/-- The constructor `MySQLConnection()`: stores the context that `mysql_init`
allocates. An allocation failure (a `NULL` return) is not modelled. -/
def MySQLConnection.constructor (env : NativeReply) : MySQLConnection × List NativeCall :=
  ({ handle := some env.mysql_init, connected := false }, [NativeCall.mysql_init env.mysql_init])

/-- The destructor `~MySQLConnection()`. -/
def MySQLConnection.destructor (conn : MySQLConnection) : MySQLConnection × List NativeCall :=
  match conn.handle with
  | some h =>
    ({ handle := none, connected := false },
      if conn.connected then [NativeCall.mysql_close (some h)] else [])
  | none => (conn, [])

/-- Values a connection method returns to the script. -/
inductive ConnReturn where
  | boolean (b : Bool)
  | direct (ok : Bool) (affected_rows insert_id : Int)
  | result (res : MySQLResult)
  | string (s : String)
  | description (handle : Option Nat)
  | nothing
  deriving DecidableEq, Repr

/-- The Lua function `mysql_connect`. Absent arguments (`none`) take the
`luaL_opt*` defaults. The `state` of the outcome is the userdata created by
`lua_newuserdata`, which is the value returned on success and stays in the Lua
heap, to be collected, when the error is raised. -/
def mysql_connect (env : NativeReply) (host user password database : Option String)
    (port : Option Int) : Outcome MySQLConnection Unit :=
  let host1 := host.getD "localhost"
  let user1 := user.getD "root"
  let password1 := password.getD ""
  let database1 := database.getD ""
  let port1 := to_unsigned_int (port.getD 3306)
  let conn := (MySQLConnection.constructor env).1
  let calls := (MySQLConnection.constructor env).2 ++
    [NativeCall.mysql_real_connect conn.handle host1 user1 password1 database1 port1]
  if env.mysql_real_connect = false then
    { ret := .error ("MySQL connection error: " ++ env.mysql_error), state := conn,
      calls := calls ++ [NativeCall.mysql_error conn.handle] }
  else
    { ret := .ok (), state := { conn with connected := true }, calls := calls }

/-- The Lua function `mysql_conn_close`. -/
def mysql_conn_close (conn : MySQLConnection) : Outcome MySQLConnection ConnReturn :=
  if conn.handle ≠ none ∧ conn.connected = true then
    { ret := .ok (ConnReturn.boolean true), state := { handle := none, connected := false },
      calls := [NativeCall.mysql_close conn.handle] }
  else
    { ret := .ok (ConnReturn.boolean true), state := conn, calls := [] }

/-- The Lua function `mysql_conn_ping`. -/
def mysql_conn_ping (env : NativeReply) (conn : MySQLConnection) :
    Outcome MySQLConnection ConnReturn :=
  if conn.handle = none ∨ conn.connected = false then
    { ret := .error "Connection not established", state := conn, calls := [] }
  else if env.mysql_ping = 0 then
    { ret := .ok (ConnReturn.boolean true), state := conn,
      calls := [NativeCall.mysql_ping conn.handle] }
  else
    { ret := .error ("MySQL ping error: " ++ env.mysql_error), state := conn,
      calls := [NativeCall.mysql_ping conn.handle, NativeCall.mysql_error conn.handle] }

/-- The Lua function `mysql_conn_select_db`. -/
def mysql_conn_select_db (env : NativeReply) (conn : MySQLConnection) (db_name : String) :
    Outcome MySQLConnection ConnReturn :=
  if conn.handle = none ∨ conn.connected = false then
    { ret := .error "Connection not established", state := conn, calls := [] }
  else if env.mysql_select_db = 0 then
    { ret := .ok (ConnReturn.boolean true), state := conn,
      calls := [NativeCall.mysql_select_db conn.handle db_name] }
  else
    { ret := .error ("MySQL select_db error: " ++ env.mysql_error), state := conn,
      calls := [NativeCall.mysql_select_db conn.handle db_name,
        NativeCall.mysql_error conn.handle] }

/-- The Lua function `mysql_conn_query`. -/
def mysql_conn_query (env : NativeReply) (conn : MySQLConnection) (query : String) :
    Outcome MySQLConnection ConnReturn :=
  if conn.handle = none ∨ conn.connected = false then
    { ret := .error "Connection not established", state := conn, calls := [] }
  else if env.mysql_query ≠ 0 then
    { ret := .error ("MySQL query error: " ++ env.mysql_error), state := conn,
      calls := [NativeCall.mysql_query conn.handle query, NativeCall.mysql_error conn.handle] }
  else
    match env.mysql_store_result with
    | some (fields, data) =>
      { ret := .ok (ConnReturn.result { result := some (mysql_store_result fields data) }),
        state := conn,
        calls := [NativeCall.mysql_query conn.handle query,
          NativeCall.mysql_store_result conn.handle] }
    | none =>
      if env.mysql_field_count = 0 then
        { ret := .ok (ConnReturn.direct true (to_lua_Integer env.mysql_affected_rows)
            (to_lua_Integer env.mysql_insert_id)),
          state := conn,
          calls := [NativeCall.mysql_query conn.handle query,
            NativeCall.mysql_store_result conn.handle, NativeCall.mysql_field_count conn.handle,
            NativeCall.mysql_affected_rows conn.handle, NativeCall.mysql_insert_id conn.handle] }
      else
        { ret := .error ("MySQL query error: " ++ env.mysql_error), state := conn,
          calls := [NativeCall.mysql_query conn.handle query,
            NativeCall.mysql_store_result conn.handle, NativeCall.mysql_field_count conn.handle,
            NativeCall.mysql_error conn.handle] }

/-- The Lua function `mysql_conn_escape_string`. The scratch buffer
`new char[str_len * 2 + 1]` lives within the call and is no native client
call. -/
def mysql_conn_escape_string (env : NativeReply) (conn : MySQLConnection) (str : String) :
    Outcome MySQLConnection ConnReturn :=
  if conn.handle = none ∨ conn.connected = false then
    { ret := .error "Connection not established", state := conn, calls := [] }
  else
    { ret := .ok (ConnReturn.string (env.mysql_real_escape_string str)), state := conn,
      calls := [NativeCall.mysql_real_escape_string conn.handle str] }

/-- The Lua function `mysql_conn_gc`, the `__gc` metamethod. -/
def mysql_conn_gc (conn : MySQLConnection) : Outcome MySQLConnection ConnReturn :=
  { ret := .ok ConnReturn.nothing, state := conn.destructor.1, calls := conn.destructor.2 }

/-- The Lua function `mysql_conn_tostring`. -/
def mysql_conn_tostring (conn : MySQLConnection) : Outcome MySQLConnection ConnReturn :=
  { ret := .ok (ConnReturn.description conn.handle), state := conn, calls := [] }

/-- A call of an entry of the method table `mysql_conn_methods`, with its
(well-typed) arguments. -/
inductive ConnMethod where
  | close
  | ping
  | select_db (db_name : String)
  | query (query : String)
  | escape_string (str : String)
  | gc
  | tostring

/-- Dispatch through the method table `mysql_conn_methods`. -/
def mysql_conn_methods (env : NativeReply) (m : ConnMethod) (conn : MySQLConnection) :
    Outcome MySQLConnection ConnReturn :=
  match m with
  | ConnMethod.close => mysql_conn_close conn
  | ConnMethod.ping => mysql_conn_ping env conn
  | ConnMethod.select_db db_name => mysql_conn_select_db env conn db_name
  | ConnMethod.query query => mysql_conn_query env conn query
  | ConnMethod.escape_string str => mysql_conn_escape_string env conn str
  | ConnMethod.gc => mysql_conn_gc conn
  | ConnMethod.tostring => mysql_conn_tostring conn

/-- A sequence of method calls on one connection handle, each with the native
library's answers during that call: the handle afterwards and all native calls. -/
def run_conn : List (NativeReply × ConnMethod) → MySQLConnection →
    MySQLConnection × List NativeCall
  | [], conn => (conn, [])
  | (env, m) :: rest, conn =>
    let o := mysql_conn_methods env m conn
    let r := run_conn rest o.state
    (r.1, o.calls ++ r.2)

/-- The two ways a connection handle is torn down: the `close` method and the
destructor hook `__gc`. -/
inductive Teardown where
  | close
  | gc
  deriving DecidableEq, Repr

def conn_teardown (op : Teardown) (conn : MySQLConnection) : Outcome MySQLConnection ConnReturn :=
  match op with
  | Teardown.close => mysql_conn_close conn
  | Teardown.gc => mysql_conn_gc conn

/-- A sequence of teardown invocations on one connection handle. -/
def run_teardowns : List Teardown → MySQLConnection → MySQLConnection × List NativeCall
  | [], conn => (conn, [])
  | op :: rest, conn =>
    let o := conn_teardown op conn
    let r := run_teardowns rest o.state
    (r.1, o.calls ++ r.2)

/-- A native release of a session context: a `mysql_close` call. -/
def is_mysql_close (c : NativeCall) : Bool :=
  match c with
  | NativeCall.mysql_close _ => true
  | _ => false

/-- A native release of a result set: a `mysql_free_result` call. -/
def is_mysql_free_result (c : NativeCall) : Bool :=
  match c with
  | NativeCall.mysql_free_result => true
  | _ => false

/-! ## The specification's wording of the integer conversion -/

/-- The number a string of decimal digits denotes. -/
def decimal_value (digits : List Char) : Nat :=
  digits.foldl (fun acc c => 10 * acc + (c.toNat - 48)) 0

/-- The integer denoted by a text's leading numeric prefix, "optional sign
followed by decimal digits", and 0 when there is no such prefix. -/
def leading_numeric_value (text : List Char) : Int :=
  match text with
  | '-' :: rest => -(decimal_value (rest.takeWhile isdigit) : Int)
  | '+' :: rest => (decimal_value (rest.takeWhile isdigit) : Int)
  | rest => (decimal_value (rest.takeWhile isdigit) : Int)

/-! ## The specification's conversion table -/

/-- The conversion table of the specification for a non-null column: lenient
integer parse for the integer tags, floating-point parse for the float and
decimal tags, verbatim copy of the bytes for every other tag. -/
def converted_value (tag : Int) (raw : String) : LuaValue :=
  if tag ∈ [MYSQL_TYPE_TINY, MYSQL_TYPE_SHORT, MYSQL_TYPE_LONG, MYSQL_TYPE_INT24,
      MYSQL_TYPE_LONGLONG] then
    LuaValue.integer (atoll raw.data)
  else if tag ∈ [MYSQL_TYPE_FLOAT, MYSQL_TYPE_DOUBLE, MYSQL_TYPE_DECIMAL,
      MYSQL_TYPE_NEWDECIMAL] then
    LuaValue.number { atof := c_str raw.data }
  else
    LuaValue.string raw

/-! # Theorems -/

theorem lua_gettable_filter {V : Type} (t : List (LuaKey × V)) (k k1 : LuaKey) :
    lua_gettable (t.filter (fun e => !decide (e.1 = k))) k1 =
      if k1 = k then none else lua_gettable t k1 := by
  induction t with
  | nil => simp [lua_gettable]
  | cons e t ih =>
    obtain ⟨a, v⟩ := e
    by_cases ha : a = k
    · subst ha
      by_cases hk : k1 = a
      · subst hk; simp [List.filter, ih]
      · have hk2 : ¬ a = k1 := fun h => hk h.symm
        simp [List.filter, ih, lua_gettable, hk, hk2]
    · by_cases hk : k1 = k
      · subst hk
        simp [List.filter, ha, lua_gettable, ih]
      · simp [List.filter, ha, lua_gettable, ih, hk]

theorem lua_gettable_settable {V : Type} (t : List (LuaKey × V)) (k : LuaKey) (v : Option V)
    (k1 : LuaKey) :
    lua_gettable (lua_settable t k v) k1 = if k1 = k then v else lua_gettable t k1 := by
  cases v with
  | none => simp [lua_settable, lua_gettable_filter]
  | some x =>
    by_cases hk : k1 = k
    · subst hk; simp [lua_settable, lua_gettable]
    · have hk2 : ¬ k = k1 := fun h => hk h.symm
      simp [lua_settable, lua_gettable, lua_gettable_filter, hk, hk2]

theorem lua_gettable_rawseti {V : Type} (t : List (LuaKey × V)) (n : Int) (v : V)
    (k1 : LuaKey) :
    lua_gettable (lua_rawseti t n v) k1 = if k1 = LuaKey.int n then some v else lua_gettable t k1 := by
  simp [lua_rawseti, lua_gettable_settable]

/-! ## Released result handles -/

/-- C5: on a Result Handle whose native result-set pointer is absent, each of
fetch, fetch_all, num_rows, num_fields and field_info raises "Invalid result
object" (the InvalidResultError), issues no native call and leaves the handle
as it is; the destructor hook leaves every handle in that state. -/
theorem result_methods_raise_when_released :
    ((mysql_result_fetch { result := none }).ret = .error "Invalid result object" ∧
      (mysql_result_fetch { result := none }).calls = [] ∧
      (mysql_result_fetch { result := none }).state = { result := none }) ∧
    ((mysql_result_fetch_all { result := none }).ret = .error "Invalid result object" ∧
      (mysql_result_fetch_all { result := none }).calls = [] ∧
      (mysql_result_fetch_all { result := none }).state = { result := none }) ∧
    ((mysql_result_num_rows { result := none }).ret = .error "Invalid result object" ∧
      (mysql_result_num_rows { result := none }).calls = [] ∧
      (mysql_result_num_rows { result := none }).state = { result := none }) ∧
    ((mysql_result_num_fields { result := none }).ret = .error "Invalid result object" ∧
      (mysql_result_num_fields { result := none }).calls = [] ∧
      (mysql_result_num_fields { result := none }).state = { result := none }) ∧
    ((mysql_result_field_info { result := none }).ret = .error "Invalid result object" ∧
      (mysql_result_field_info { result := none }).calls = [] ∧
      (mysql_result_field_info { result := none }).state = { result := none }) ∧
    ∀ res : MySQLResult, (mysql_result_gc res).state = { result := none } := by
  refine ⟨⟨rfl, rfl, rfl⟩, ⟨rfl, rfl, rfl⟩, ⟨rfl, rfl, rfl⟩, ⟨rfl, rfl, rfl⟩, ⟨rfl, rfl, rfl⟩, ?_⟩
  intro res
  obtain ⟨r⟩ := res
  cases r <;> rfl

/-! ## Teardown of handles -/

theorem conn_teardown_null (op : Teardown) (conn : MySQLConnection) (h : conn.handle = none) :
    (conn_teardown op conn).state = conn ∧ (conn_teardown op conn).calls = [] := by
  obtain ⟨hd, c⟩ := conn
  simp only at h
  subst h
  cases op <;> simp [conn_teardown, mysql_conn_close, mysql_conn_gc, MySQLConnection.destructor]

theorem conn_teardown_release (op : Teardown) (conn : MySQLConnection) :
    ((conn_teardown op conn).calls = [] ∨
      ((conn_teardown op conn).calls = [NativeCall.mysql_close conn.handle] ∧
        (conn_teardown op conn).state = { handle := none, connected := false })) := by
  obtain ⟨hd, c⟩ := conn
  cases op <;> cases hd <;> cases c <;>
    simp [conn_teardown, mysql_conn_close, mysql_conn_gc, MySQLConnection.destructor]

theorem run_teardowns_null (ops : List Teardown) (conn : MySQLConnection)
    (h : conn.handle = none) : run_teardowns ops conn = (conn, []) := by
  induction ops with
  | nil => rfl
  | cons op ops ih =>
    have h1 := conn_teardown_null op conn h
    simp [run_teardowns, h1.1, h1.2, ih]

theorem run_teardowns_count (ops : List Teardown) (conn : MySQLConnection) :
    ((run_teardowns ops conn).2.filter is_mysql_close).length ≤ 1 ∧
    (0 < ((run_teardowns ops conn).2.filter is_mysql_close).length →
      (run_teardowns ops conn).1.handle = none) := by
  induction ops generalizing conn with
  | nil => simp [run_teardowns]
  | cons op ops ih =>
    rcases conn_teardown_release op conn with h | ⟨h1, h2⟩
    · simp only [run_teardowns, h, List.nil_append]
      exact ih _
    · have h3 := run_teardowns_null ops { handle := none, connected := false } rfl
      simp [run_teardowns, h1, h2, h3, is_mysql_close]

theorem result_gc_times_null (k : Nat) :
    result_gc_times k { result := none } = ({ result := none }, []) := by
  induction k with
  | zero => rfl
  | succ k ih => simp [result_gc_times, mysql_result_gc, MySQLResult.destructor, ih]

theorem result_gc_times_count (k : Nat) (res : MySQLResult) :
    ((result_gc_times k res).2.filter is_mysql_free_result).length ≤ 1 ∧
    (0 < ((result_gc_times k res).2.filter is_mysql_free_result).length →
      (result_gc_times k res).1.result = none) := by
  obtain ⟨r⟩ := res
  cases k with
  | zero => simp [result_gc_times]
  | succ k =>
    cases r with
    | none => simp [result_gc_times_null]
    | some r =>
      simp [result_gc_times, mysql_result_gc, MySQLResult.destructor, result_gc_times_null,
        is_mysql_free_result]

/-- C3: for a Connection Handle in any state and any sequence of close() calls
and destructor-hook invocations, and for a Result Handle in any state and any
number of destructor-hook invocations: the native release (mysql_close,
mysql_free_result) is issued at most once; once a release has been issued the
owned pointer is null, and every later invocation leaves the handle unchanged
and issues no native call. -/
theorem release_at_most_once :
    (∀ (conn : MySQLConnection) (ops : List Teardown),
      ((run_teardowns ops conn).2.filter is_mysql_close).length ≤ 1) ∧
    (∀ (conn : MySQLConnection) (pre post : List Teardown),
      0 < ((run_teardowns pre conn).2.filter is_mysql_close).length →
        (run_teardowns pre conn).1.handle = none ∧
        run_teardowns post (run_teardowns pre conn).1 = ((run_teardowns pre conn).1, [])) ∧
    (∀ (res : MySQLResult) (k : Nat),
      ((result_gc_times k res).2.filter is_mysql_free_result).length ≤ 1) ∧
    (∀ (res : MySQLResult) (k m : Nat),
      0 < ((result_gc_times k res).2.filter is_mysql_free_result).length →
        (result_gc_times k res).1.result = none ∧
        result_gc_times m (result_gc_times k res).1 = ((result_gc_times k res).1, [])) := by
  refine ⟨fun conn ops => (run_teardowns_count ops conn).1, ?_,
    fun res k => (result_gc_times_count k res).1, ?_⟩
  · intro conn pre post h
    have h1 := (run_teardowns_count pre conn).2 h
    exact ⟨h1, run_teardowns_null post _ h1⟩
  · intro res k m h
    have h1 := (result_gc_times_count k res).2 h
    refine ⟨h1, ?_⟩
    have h2 : (result_gc_times k res).1 = { result := none } := by
      cases hr : (result_gc_times k res).1
      rw [hr] at h1
      simp only at h1
      rw [h1]
    rw [h2]
    exact result_gc_times_null m

theorem release_at_most_once_witness :
    (run_teardowns [Teardown.close, Teardown.gc] { handle := some 4096, connected := true }).1.handle
        = none ∧
    run_teardowns [Teardown.gc, Teardown.close]
        (run_teardowns [Teardown.close, Teardown.gc]
          { handle := some 4096, connected := true }).1 =
      ((run_teardowns [Teardown.close, Teardown.gc]
          { handle := some 4096, connected := true }).1, []) :=
  release_at_most_once.2.1 { handle := some 4096, connected := true }
    [Teardown.close, Teardown.gc] [Teardown.gc, Teardown.close] (by decide)

/-! ## Connection handles without an open session -/

theorem mysql_conn_close_not_live (conn : MySQLConnection) :
    (mysql_conn_close conn).state.handle = none ∨
      (mysql_conn_close conn).state.connected = false := by
  obtain ⟨hd, c⟩ := conn
  cases hd <;> cases c <;> simp [mysql_conn_close]

theorem mysql_conn_methods_not_live (env : NativeReply) (m : ConnMethod)
    (conn : MySQLConnection) (h : conn.handle = none ∨ conn.connected = false) :
    ((mysql_conn_methods env m conn).state.handle = none ∨
      (mysql_conn_methods env m conn).state.connected = false) ∧
    (mysql_conn_methods env m conn).calls = [] := by
  obtain ⟨hd, c⟩ := conn
  cases m <;> cases hd <;> cases c <;>
    simp_all [mysql_conn_methods, mysql_conn_close, mysql_conn_ping, mysql_conn_select_db,
      mysql_conn_query, mysql_conn_escape_string, mysql_conn_gc, mysql_conn_tostring,
      MySQLConnection.destructor]

theorem run_conn_not_live (later : List (NativeReply × ConnMethod)) (conn : MySQLConnection)
    (h : conn.handle = none ∨ conn.connected = false) :
    ((run_conn later conn).1.handle = none ∨ (run_conn later conn).1.connected = false) ∧
    (run_conn later conn).2 = [] := by
  induction later generalizing conn with
  | nil => exact ⟨h, rfl⟩
  | cons e later ih =>
    obtain ⟨env, m⟩ := e
    have h1 := mysql_conn_methods_not_live env m conn h
    have h2 := ih _ h1.1
    simp only [run_conn, h1.2, List.nil_append]
    exact h2

theorem session_methods_not_live (env : NativeReply) (conn : MySQLConnection)
    (h : conn.handle = none ∨ conn.connected = false) (db_name query str : String) :
    ((mysql_conn_ping env conn).ret = .error "Connection not established" ∧
      (mysql_conn_ping env conn).calls = []) ∧
    ((mysql_conn_select_db env conn db_name).ret = .error "Connection not established" ∧
      (mysql_conn_select_db env conn db_name).calls = []) ∧
    ((mysql_conn_query env conn query).ret = .error "Connection not established" ∧
      (mysql_conn_query env conn query).calls = []) ∧
    ((mysql_conn_escape_string env conn str).ret = .error "Connection not established" ∧
      (mysql_conn_escape_string env conn str).calls = []) := by
  simp [mysql_conn_ping, mysql_conn_select_db, mysql_conn_query, mysql_conn_escape_string, h]

/-- C4: once close() has been called on a Connection Handle (in whatever state
it was), then after any further sequence of method calls, each of ping,
select_db, query and escape_string raises "Connection not established" (the
NotConnectedError) and issues no native client call; the calls in between issue
none either. -/
theorem session_methods_raise_after_close (conn : MySQLConnection)
    (later : List (NativeReply × ConnMethod)) (env : NativeReply)
    (db_name query str : String) :
    ((mysql_conn_ping env (run_conn later (mysql_conn_close conn).state).1).ret =
        .error "Connection not established" ∧
      (mysql_conn_ping env (run_conn later (mysql_conn_close conn).state).1).calls = []) ∧
    ((mysql_conn_select_db env (run_conn later (mysql_conn_close conn).state).1 db_name).ret =
        .error "Connection not established" ∧
      (mysql_conn_select_db env (run_conn later (mysql_conn_close conn).state).1 db_name).calls
        = []) ∧
    ((mysql_conn_query env (run_conn later (mysql_conn_close conn).state).1 query).ret =
        .error "Connection not established" ∧
      (mysql_conn_query env (run_conn later (mysql_conn_close conn).state).1 query).calls = []) ∧
    ((mysql_conn_escape_string env (run_conn later (mysql_conn_close conn).state).1 str).ret =
        .error "Connection not established" ∧
      (mysql_conn_escape_string env (run_conn later (mysql_conn_close conn).state).1 str).calls
        = []) ∧
    (run_conn later (mysql_conn_close conn).state).2 = [] := by
  have h1 := run_conn_not_live later _ (mysql_conn_close_not_live conn)
  have h2 := session_methods_not_live env _ h1.1 db_name query str
  exact ⟨h2.1, h2.2.1, h2.2.2.1, h2.2.2.2, h1.2⟩

/-! ## close -/

theorem mysql_connect_invariant (env : NativeReply) (host user password database : Option String)
    (port : Option Int) :
    (mysql_connect env host user password database port).state.connected = true →
      (mysql_connect env host user password database port).state.handle ≠ none := by
  cases h : env.mysql_real_connect <;> simp [mysql_connect, MySQLConnection.constructor, h]

theorem mysql_conn_methods_invariant (env : NativeReply) (m : ConnMethod)
    (conn : MySQLConnection) (h : conn.connected = true → conn.handle ≠ none) :
    (mysql_conn_methods env m conn).state.connected = true →
      (mysql_conn_methods env m conn).state.handle ≠ none := by
  obtain ⟨hd, c⟩ := conn
  cases m <;> cases hd <;> cases c <;>
    simp_all [mysql_conn_methods, mysql_conn_close, mysql_conn_ping, mysql_conn_select_db,
      mysql_conn_query, mysql_conn_escape_string, mysql_conn_gc, mysql_conn_tostring,
      MySQLConnection.destructor] <;>
    (repeat' split) <;> simp

/-- Every handle a script can hold, made by `connect` and driven through any
method calls, satisfies the data-model invariant: `connected` implies a
non-null native handle. -/
theorem run_conn_invariant (later : List (NativeReply × ConnMethod)) (conn : MySQLConnection)
    (h : conn.connected = true → conn.handle ≠ none) :
    (run_conn later conn).1.connected = true → (run_conn later conn).1.handle ≠ none := by
  induction later generalizing conn with
  | nil => exact h
  | cons e later ih =>
    obtain ⟨env, m⟩ := e
    exact ih _ (mysql_conn_methods_invariant env m conn h)

/-- C9: on a Connection Handle in any of its states (connected, never
connected, already closed: `connected` only with a non-null native handle),
close() does not raise and returns true; a second close() returns true again,
issues no native call and leaves the handle exactly as the first call left it,
with connected == false. -/
theorem close_idempotent (conn : MySQLConnection)
    (h : conn.connected = true → conn.handle ≠ none) :
    (mysql_conn_close conn).ret = .ok (ConnReturn.boolean true) ∧
    (mysql_conn_close (mysql_conn_close conn).state).ret = .ok (ConnReturn.boolean true) ∧
    (mysql_conn_close (mysql_conn_close conn).state).state = (mysql_conn_close conn).state ∧
    (mysql_conn_close (mysql_conn_close conn).state).calls = [] ∧
    (mysql_conn_close conn).state.connected = false := by
  obtain ⟨hd, c⟩ := conn
  cases hd <;> cases c <;> simp_all [mysql_conn_close]

theorem close_idempotent_witness :
    (mysql_conn_close { handle := some 4096, connected := true }).ret =
        .ok (ConnReturn.boolean true) ∧
    (mysql_conn_close (mysql_conn_close { handle := some 4096, connected := true }).state).ret =
        .ok (ConnReturn.boolean true) ∧
    (mysql_conn_close (mysql_conn_close { handle := some 4096, connected := true }).state).state =
        (mysql_conn_close { handle := some 4096, connected := true }).state ∧
    (mysql_conn_close (mysql_conn_close { handle := some 4096, connected := true }).state).calls
        = [] ∧
    (mysql_conn_close { handle := some 4096, connected := true }).state.connected = false :=
  close_idempotent { handle := some 4096, connected := true } (by decide)

/-! ## A failed connect -/

theorem mysql_connect_failed (env : NativeReply) (host user password database : Option String)
    (port : Option Int) (h : env.mysql_real_connect = false) :
    (mysql_connect env host user password database port).ret =
      .error ("MySQL connection error: " ++ env.mysql_error) ∧
    (mysql_connect env host user password database port).state =
      { handle := some env.mysql_init, connected := false } ∧
    (mysql_connect env host user password database port).calls.filter is_mysql_close = [] ∧
    (mysql_conn_gc (mysql_connect env host user password database port).state).calls = [] ∧
    ∀ later : List (NativeReply × ConnMethod),
      (run_conn later (mysql_connect env host user password database port).state).2 = [] := by
  have hs : (mysql_connect env host user password database port).state =
      { handle := some env.mysql_init, connected := false } := by
    simp [mysql_connect, MySQLConnection.constructor, h]
  refine ⟨by simp [mysql_connect, h], hs, ?_, ?_, ?_⟩
  · simp [mysql_connect, MySQLConnection.constructor, h, is_mysql_close]
  · rw [hs]; rfl
  · intro later
    rw [hs]
    exact (run_conn_not_live later _ (Or.inr rfl)).2

theorem mysql_connect_succeeded (env : NativeReply)
    (host user password database : Option String) (port : Option Int)
    (h : env.mysql_real_connect = true) :
    (mysql_connect env host user password database port).ret = .ok () ∧
    (mysql_connect env host user password database port).state =
      { handle := some env.mysql_init, connected := true } := by
  simp [mysql_connect, MySQLConnection.constructor, h]

/-- C2 (the code at the failing input): a connect whose session cannot be opened
raises the connection error, but the context 4096 allocated by `mysql_init` is
not passed to `mysql_close`: not before the error propagates, not by the
destructor hook (which only forgets the pointer), and not by any later method
call on the handle. -/
theorem failed_connect_leaks_context :
    (mysql_connect
        { mysql_init := 4096, mysql_real_connect := false, mysql_error := "Connection refused",
          mysql_ping := 0, mysql_select_db := 0, mysql_query := 0, mysql_store_result := none,
          mysql_field_count := 0, mysql_affected_rows := 0, mysql_insert_id := 0,
          mysql_real_escape_string := fun s => s }
        none none none none none).ret = .error "MySQL connection error: Connection refused" ∧
    (mysql_connect
        { mysql_init := 4096, mysql_real_connect := false, mysql_error := "Connection refused",
          mysql_ping := 0, mysql_select_db := 0, mysql_query := 0, mysql_store_result := none,
          mysql_field_count := 0, mysql_affected_rows := 0, mysql_insert_id := 0,
          mysql_real_escape_string := fun s => s }
        none none none none none).calls =
      [NativeCall.mysql_init 4096,
        NativeCall.mysql_real_connect (some 4096) "localhost" "root" "" "" 3306,
        NativeCall.mysql_error (some 4096)] ∧
    (mysql_connect
        { mysql_init := 4096, mysql_real_connect := false, mysql_error := "Connection refused",
          mysql_ping := 0, mysql_select_db := 0, mysql_query := 0, mysql_store_result := none,
          mysql_field_count := 0, mysql_affected_rows := 0, mysql_insert_id := 0,
          mysql_real_escape_string := fun s => s }
        none none none none none).state = { handle := some 4096, connected := false } ∧
    (mysql_conn_gc { handle := some 4096, connected := false }).calls = [] ∧
    (mysql_conn_gc { handle := some 4096, connected := false }).state =
      { handle := none, connected := false } ∧
    ∀ later : List (NativeReply × ConnMethod),
      (run_conn later { handle := some 4096, connected := false }).2 = [] := by
  refine ⟨rfl, by decide, by decide, by decide, by decide, ?_⟩
  intro later
  exact (run_conn_not_live later _ (Or.inr rfl)).2

/-! ## Field descriptors -/

theorem field_info_fold (fields : List MYSQL_FIELD) (m : Nat) :
    (∀ j : Nat, lua_gettable ((List.range m).foldl (field_info_step fields) []) (LuaKey.int (j + 1)) =
      if j < m then (fields[j]?).map field_descriptor else none) ∧
    (∀ j : Nat, lua_gettable ((List.range m).foldl (field_info_step fields) [])
      (LuaKey.int (-(j : Int))) = none) ∧
    (∀ s : String, lua_gettable ((List.range m).foldl (field_info_step fields) [])
      (LuaKey.str s) = none) := by
  induction m with
  | zero => simp [lua_gettable]
  | succ m ih =>
    obtain ⟨ih1, ih2, ih3⟩ := ih
    rw [List.range_succ, List.foldl_append]
    simp only [List.foldl_cons, List.foldl_nil]
    cases hf : fields[m]? with
    | none =>
      simp only [field_info_step, hf]
      refine ⟨?_, ih2, ih3⟩
      intro j
      rw [ih1 j]
      by_cases h1 : j < m
      · simp [h1, Nat.lt_succ_of_lt h1]
      · by_cases h2 : j = m
        · subst h2; simp [hf]
        · have h3 : ¬ j < m + 1 := by omega
          simp [h1, h3]
    | some f =>
      simp only [field_info_step, hf]
      refine ⟨?_, ?_, ?_⟩
      · intro j
        rw [lua_gettable_rawseti, ih1 j]
        by_cases h2 : j = m
        · subst h2; simp [hf]
        · have h3 : ¬ ((j : Int) + 1 = (m : Int) + 1) := by omega
          by_cases h1 : j < m
          · simp [h3, h1, Nat.lt_succ_of_lt h1]
          · have h4 : ¬ j < m + 1 := by omega
            simp [h3, h1, h4]
      · intro j
        rw [lua_gettable_rawseti, ih2 j]
        have h3 : ¬ (-(j : Int) = (m : Int) + 1) := by omega
        simp [h3]
      · intro s
        rw [lua_gettable_rawseti, ih3 s]
        simp

theorem to_lua_Integer_of_lt (n : Nat) (h : n < 2 ^ 63) : to_lua_Integer (n : Int) = n := by
  unfold to_lua_Integer wrapSigned
  have h1 : ((n : Int) + 2 ^ (64 - 1)) % 2 ^ 64 = (n : Int) + 2 ^ (64 - 1) := by
    apply Int.emod_eq_of_lt <;> norm_num <;> omega
  rw [h1]; ring

/-- C10: on a live Result Handle with n columns, field_info() does not raise and
returns a table holding exactly n descriptors, the descriptor of column j
(0-based) under the integer key j + 1 and nothing under any other key. Each
descriptor carries the column name, the display name of its type tag, and the
declared length, maximum length and flags as Lua integers (unchanged by the
cast when below 2^63). The display names follow the tag table; every tag
outside it is named "UNKNOWN". -/
theorem field_info_descriptors (r : MYSQL_RES) :
    ((mysql_result_field_info { result := some r }).ret =
        .ok ((List.range r.fields.length).foldl (field_info_step r.fields) []) ∧
      (∀ j : Nat, lua_gettable ((List.range r.fields.length).foldl (field_info_step r.fields) [])
          (LuaKey.int (j + 1)) = (r.fields[j]?).map field_descriptor) ∧
      (∀ j : Nat, lua_gettable ((List.range r.fields.length).foldl (field_info_step r.fields) [])
          (LuaKey.int (-(j : Int))) = none) ∧
      (∀ s : String, lua_gettable ((List.range r.fields.length).foldl (field_info_step r.fields) [])
          (LuaKey.str s) = none)) ∧
    (∀ f : MYSQL_FIELD,
      lua_gettable (field_descriptor f) (LuaKey.str "name") = some (LuaValue.string f.name) ∧
      lua_gettable (field_descriptor f) (LuaKey.str "type") =
        some (LuaValue.string (type_name f.type)) ∧
      lua_gettable (field_descriptor f) (LuaKey.str "length") =
        some (LuaValue.integer (to_lua_Integer f.length)) ∧
      lua_gettable (field_descriptor f) (LuaKey.str "max_length") =
        some (LuaValue.integer (to_lua_Integer f.max_length)) ∧
      lua_gettable (field_descriptor f) (LuaKey.str "flags") =
        some (LuaValue.integer (to_lua_Integer f.flags))) ∧
    (∀ n : Nat, n < 2 ^ 63 → to_lua_Integer (n : Int) = n) ∧
    (type_name MYSQL_TYPE_TINY = "TINYINT" ∧ type_name MYSQL_TYPE_SHORT = "SMALLINT" ∧
      type_name MYSQL_TYPE_LONG = "INT" ∧ type_name MYSQL_TYPE_INT24 = "MEDIUMINT" ∧
      type_name MYSQL_TYPE_LONGLONG = "BIGINT" ∧ type_name MYSQL_TYPE_DECIMAL = "DECIMAL" ∧
      type_name MYSQL_TYPE_NEWDECIMAL = "DECIMAL" ∧ type_name MYSQL_TYPE_FLOAT = "FLOAT" ∧
      type_name MYSQL_TYPE_DOUBLE = "DOUBLE" ∧ type_name MYSQL_TYPE_BIT = "BIT" ∧
      type_name MYSQL_TYPE_TIMESTAMP = "TIMESTAMP" ∧ type_name MYSQL_TYPE_DATE = "DATE" ∧
      type_name MYSQL_TYPE_TIME = "TIME" ∧ type_name MYSQL_TYPE_DATETIME = "DATETIME" ∧
      type_name MYSQL_TYPE_YEAR = "YEAR" ∧ type_name MYSQL_TYPE_STRING = "CHAR" ∧
      type_name MYSQL_TYPE_VAR_STRING = "VARCHAR" ∧ type_name MYSQL_TYPE_BLOB = "BLOB" ∧
      type_name MYSQL_TYPE_SET = "SET" ∧ type_name MYSQL_TYPE_ENUM = "ENUM" ∧
      type_name MYSQL_TYPE_NULL = "NULL") ∧
    (∀ tag : Int,
      tag ∉ [MYSQL_TYPE_TINY, MYSQL_TYPE_SHORT, MYSQL_TYPE_LONG, MYSQL_TYPE_INT24,
        MYSQL_TYPE_LONGLONG, MYSQL_TYPE_DECIMAL, MYSQL_TYPE_NEWDECIMAL, MYSQL_TYPE_FLOAT,
        MYSQL_TYPE_DOUBLE, MYSQL_TYPE_BIT, MYSQL_TYPE_TIMESTAMP, MYSQL_TYPE_DATE,
        MYSQL_TYPE_TIME, MYSQL_TYPE_DATETIME, MYSQL_TYPE_YEAR, MYSQL_TYPE_STRING,
        MYSQL_TYPE_VAR_STRING, MYSQL_TYPE_BLOB, MYSQL_TYPE_SET, MYSQL_TYPE_ENUM,
        MYSQL_TYPE_NULL] → type_name tag = "UNKNOWN") := by
  refine ⟨⟨rfl, ?_, (field_info_fold r.fields _).2.1, (field_info_fold r.fields _).2.2⟩,
    ?_, to_lua_Integer_of_lt, by decide, ?_⟩
  · intro j
    rw [(field_info_fold r.fields _).1 j]
    by_cases h : j < r.fields.length
    · simp [h]
    · simp [h, List.getElem?_eq_none (Nat.le_of_not_lt h)]
  · intro f
    simp [field_descriptor, lua_gettable_settable]
  · intro tag h
    simp only [List.mem_cons, List.mem_singleton, List.not_mem_nil, not_or, or_false] at h
    obtain ⟨h1, h2, h3, h4, h5, h6, h7, h8, h9, h10, h11, h12, h13, h14, h15, h16, h17, h18,
      h19, h20, h21⟩ := h
    simp [type_name, *]

theorem field_info_descriptors_witness :
    (255 : Int) ∉ [MYSQL_TYPE_TINY, MYSQL_TYPE_SHORT, MYSQL_TYPE_LONG, MYSQL_TYPE_INT24,
        MYSQL_TYPE_LONGLONG, MYSQL_TYPE_DECIMAL, MYSQL_TYPE_NEWDECIMAL, MYSQL_TYPE_FLOAT,
        MYSQL_TYPE_DOUBLE, MYSQL_TYPE_BIT, MYSQL_TYPE_TIMESTAMP, MYSQL_TYPE_DATE,
        MYSQL_TYPE_TIME, MYSQL_TYPE_DATETIME, MYSQL_TYPE_YEAR, MYSQL_TYPE_STRING,
        MYSQL_TYPE_VAR_STRING, MYSQL_TYPE_BLOB, MYSQL_TYPE_SET, MYSQL_TYPE_ENUM,
        MYSQL_TYPE_NULL] ∧
    type_name 255 = "UNKNOWN" ∧ to_lua_Integer ((4294967295 : Nat) : Int) = (4294967295 : Nat) :=
  ⟨by decide,
    (field_info_descriptors (mysql_store_result
      [{ name := "geo", type := 255, length := 4294967295, max_length := 0, flags := 0 }]
      [])).2.2.2.2 255 (by decide),
    (field_info_descriptors (mysql_store_result
      [{ name := "geo", type := 255, length := 4294967295, max_length := 0, flags := 0 }]
      [])).2.2.1 4294967295 (by decide)⟩

/-! ## Rows -/

theorem fetch_column_eq (fields : List MYSQL_FIELD) (row : MYSQL_ROW) (lengths : List Nat)
    (t : RowTable) (i : Nat) (f : MYSQL_FIELD) (hf : fields[i]? = some f) :
    fetch_column fields row lengths t i =
      lua_settable
        (lua_settable t (LuaKey.str f.name)
          ((row_at row i).map (fun s => name_value f.type s (lengths.getD i 0))))
        (LuaKey.int (i + 1)) ((row_at row i).map (fun s => lua_pushlstring s (lengths.getD i 0))) := by
  unfold fetch_column
  rw [hf]
  cases row_at row i <;> rfl

theorem fetch_column_none (fields : List MYSQL_FIELD) (row : MYSQL_ROW) (lengths : List Nat)
    (t : RowTable) (i : Nat) (hf : fields[i]? = none) :
    fetch_column fields row lengths t i = t := by
  unfold fetch_column
  rw [hf]

theorem row_fold_ordinal (fields : List MYSQL_FIELD) (row : MYSQL_ROW) (lengths : List Nat)
    (m : Nat) :
    (∀ j : Nat, lua_gettable ((List.range m).foldl (fetch_column fields row lengths) [])
        (LuaKey.int (j + 1)) =
      if j < m ∧ j < fields.length then
        (row_at row j).map (fun s => lua_pushlstring s (lengths.getD j 0))
      else none) ∧
    (∀ j : Nat, lua_gettable ((List.range m).foldl (fetch_column fields row lengths) [])
        (LuaKey.int (-(j : Int))) = none) := by
  induction m with
  | zero => simp [lua_gettable]
  | succ m ih =>
    obtain ⟨ih1, ih2⟩ := ih
    rw [List.range_succ, List.foldl_append]
    simp only [List.foldl_cons, List.foldl_nil]
    cases hf : fields[m]? with
    | none =>
      rw [fetch_column_none _ _ _ _ _ hf]
      have hm : fields.length ≤ m := by
        by_contra hc
        rw [List.getElem?_eq_getElem (by omega)] at hf
        exact Option.noConfusion hf
      refine ⟨?_, ih2⟩
      intro j
      rw [ih1 j]
      by_cases h1 : j < fields.length
      · have h2 : j < m := by omega
        have h3 : j < m + 1 := by omega
        simp [h1, h2, h3]
      · simp [h1]
    | some f =>
      rw [fetch_column_eq _ _ _ _ _ f hf]
      have hm : m < fields.length := by
        by_contra hc
        rw [List.getElem?_eq_none (by omega)] at hf
        exact Option.noConfusion hf
      refine ⟨?_, ?_⟩
      · intro j
        rw [lua_gettable_settable, lua_gettable_settable, ih1 j]
        by_cases h2 : j = m
        · subst h2; simp [hm]
        · have h3 : ¬ ((j : Int) + 1 = (m : Int) + 1) := by omega
          by_cases h1 : j < m
          · simp [h3, h1, Nat.lt_succ_of_lt h1]
          · have h4 : ¬ j < m + 1 := by omega
            simp [h3, h1, h4]
      · intro j
        rw [lua_gettable_settable, lua_gettable_settable, ih2 j]
        have h3 : ¬ (-(j : Int) = (m : Int) + 1) := by omega
        simp [h3]

theorem row_fold_name (fields : List MYSQL_FIELD) (row : MYSQL_ROW) (lengths : List Nat)
    (m : Nat) :
    (∀ (j : Nat) (f : MYSQL_FIELD), fields[j]? = some f → j < m →
      (∀ (j1 : Nat) (f1 : MYSQL_FIELD), j < j1 → j1 < m → fields[j1]? = some f1 →
        f1.name ≠ f.name) →
      lua_gettable ((List.range m).foldl (fetch_column fields row lengths) [])
          (LuaKey.str f.name) =
        (row_at row j).map (fun s => name_value f.type s (lengths.getD j 0))) ∧
    (∀ s : String, (∀ (j : Nat) (f : MYSQL_FIELD), j < m → fields[j]? = some f → f.name ≠ s) →
      lua_gettable ((List.range m).foldl (fetch_column fields row lengths) []) (LuaKey.str s) =
        none) := by
  induction m with
  | zero =>
    refine ⟨?_, ?_⟩
    · intro j f _ hj; omega
    · intro s _; simp [lua_gettable]
  | succ m ih =>
    obtain ⟨ih1, ih2⟩ := ih
    rw [List.range_succ, List.foldl_append]
    simp only [List.foldl_cons, List.foldl_nil]
    cases hf : fields[m]? with
    | none =>
      rw [fetch_column_none _ _ _ _ _ hf]
      refine ⟨?_, ?_⟩
      · intro j f hj hjm hlast
        have h2 : j ≠ m := by
          intro h; subst h; rw [hf] at hj; exact Option.noConfusion hj
        exact ih1 j f hj (by omega) (fun j1 f1 h1 h3 h4 => hlast j1 f1 h1 (by omega) h4)
      · intro s hs
        exact ih2 s (fun j f h1 h2 => hs j f (by omega) h2)
    | some fm =>
      rw [fetch_column_eq _ _ _ _ _ fm hf]
      refine ⟨?_, ?_⟩
      · intro j f hj hjm hlast
        rw [lua_gettable_settable, lua_gettable_settable]
        by_cases h2 : j = m
        · subst h2
          rw [hf] at hj
          injection hj with hj
          subst hj
          simp
        · have h3 : fm.name ≠ f.name := hlast m fm (by omega) (by omega) hf
          have h4 : ¬ f.name = fm.name := fun h => h3 h.symm
          simp only [h4, reduceCtorEq, if_false, LuaKey.str.injEq]
          exact ih1 j f hj (by omega) (fun j1 f1 h1 h5 h6 => hlast j1 f1 h1 (by omega) h6)
      · intro s hs
        rw [lua_gettable_settable, lua_gettable_settable]
        have h3 : fm.name ≠ s := hs m fm (by omega) hf
        have h4 : ¬ s = fm.name := fun h => h3 h.symm
        simp only [h4, reduceCtorEq, if_false, LuaKey.str.injEq]
        exact ih2 s (fun j f h1 h2 => hs j f (by omega) h2)

theorem lua_pushlstring_length (s : String) : lua_pushlstring s s.length = LuaValue.string s := by
  cases s
  simp [lua_pushlstring, String.length]

theorem mysql_fetch_lengths_getD (row : MYSQL_ROW) (i : Nat) (s : String)
    (h : row_at row i = some s) : (mysql_fetch_lengths row).getD i 0 = s.length := by
  unfold row_at at h
  unfold mysql_fetch_lengths
  cases hr : row[i]? with
  | none => rw [hr] at h; simp at h
  | some c =>
    rw [hr] at h
    simp only [Option.join] at h
    subst h
    simp [List.getD_eq_getElem?_getD, List.getElem?_map, hr]

theorem name_value_length (tag : Int) (s : String) :
    name_value tag s s.length = converted_value tag s := by
  unfold name_value converted_value
  simp only [List.mem_cons, List.mem_singleton, List.not_mem_nil, or_false, lua_pushlstring_length]

theorem row_at_map_pushlstring (row : MYSQL_ROW) (i : Nat) :
    (row_at row i).map (fun s => lua_pushlstring s ((mysql_fetch_lengths row).getD i 0)) =
      (row_at row i).map LuaValue.string := by
  cases h : row_at row i with
  | none => rfl
  | some s =>
    show some (lua_pushlstring s ((mysql_fetch_lengths row).getD i 0)) = some (LuaValue.string s)
    rw [mysql_fetch_lengths_getD row i s h, lua_pushlstring_length]

theorem row_at_map_name_value (row : MYSQL_ROW) (i : Nat) (tag : Int) :
    (row_at row i).map (fun s => name_value tag s ((mysql_fetch_lengths row).getD i 0)) =
      (row_at row i).map (converted_value tag) := by
  cases h : row_at row i with
  | none => rfl
  | some s =>
    show some (name_value tag s ((mysql_fetch_lengths row).getD i 0)) =
      some (converted_value tag s)
    rw [mysql_fetch_lengths_getD row i s h, name_value_length]

theorem fetch_all_loop_values (num_fields : Nat) (fields : List MYSQL_FIELD)
    (rows : List MYSQL_ROW) (row_count : Int) (tbl : ResultsTable) (key : LuaKey) (t : RowTable)
    (h : lua_gettable (fetch_all_loop num_fields fields rows row_count tbl) key = some t) :
    (∃ row ∈ rows, t = row_table num_fields fields row (mysql_fetch_lengths row)) ∨
      lua_gettable tbl key = some t := by
  induction rows generalizing row_count tbl with
  | nil => exact Or.inr h
  | cons row rest ih =>
    simp only [fetch_all_loop] at h
    rcases ih _ _ h with ⟨r, hr, ht⟩ | h1
    · exact Or.inl ⟨r, List.mem_cons_of_mem _ hr, ht⟩
    · rw [lua_gettable_rawseti] at h1
      by_cases hk : key = LuaKey.int (to_int (row_count + 1))
      · rw [if_pos hk] at h1
        injection h1 with h1
        exact Or.inl ⟨row, List.mem_cons_self _ _, h1.symm⟩
      · rw [if_neg hk] at h1
        exact Or.inr h1

theorem row_table_ordinal (fields : List MYSQL_FIELD) (row : MYSQL_ROW) (i : Nat)
    (hi : i < fields.length) :
    lua_gettable (row_table fields.length fields row (mysql_fetch_lengths row))
      (LuaKey.int (i + 1)) = (row_at row i).map LuaValue.string := by
  unfold row_table
  rw [(row_fold_ordinal fields row _ fields.length).1 i, if_pos ⟨hi, hi⟩, row_at_map_pushlstring]

theorem row_table_name (fields : List MYSQL_FIELD) (row : MYSQL_ROW) (i : Nat) (f : MYSQL_FIELD)
    (hf : fields[i]? = some f)
    (hlast : ∀ (j : Nat) (g : MYSQL_FIELD), i < j → fields[j]? = some g → g.name ≠ f.name) :
    lua_gettable (row_table fields.length fields row (mysql_fetch_lengths row))
      (LuaKey.str f.name) = (row_at row i).map (converted_value f.type) := by
  have hi : i < fields.length := by
    by_contra hc
    rw [List.getElem?_eq_none (by omega)] at hf
    exact Option.noConfusion hf
  unfold row_table
  rw [(row_fold_name fields row _ fields.length).1 i f hf hi
    (fun j g h1 _ h3 => hlast j g h1 h3), row_at_map_name_value]

/-- C1 (amended): fetch() returns the row table of the row under the cursor, and
every row inside the table of fetch_all() is the row table of a row of the
result set. In the row table of a row, for every column i (0-based): the value
under the integer key i + 1 is the column's raw bytes, copied whole, and nil for
a NULL column; and, when no later column has the same name, the value under the
column's name is the converted value for the column's type tag, and nil for a
NULL column. (A name shared by several columns holds the value of the last of
them.) -/
theorem row_dual_keys (fields : List MYSQL_FIELD) (row : MYSQL_ROW) (i : Nat)
    (f : MYSQL_FIELD) (hf : fields[i]? = some f) :
    (lua_gettable (row_table fields.length fields row (mysql_fetch_lengths row))
        (LuaKey.int (i + 1)) = (row_at row i).map LuaValue.string ∧
      ((∀ (j : Nat) (g : MYSQL_FIELD), i < j → fields[j]? = some g → g.name ≠ f.name) →
        lua_gettable (row_table fields.length fields row (mysql_fetch_lengths row))
          (LuaKey.str f.name) = (row_at row i).map (converted_value f.type))) ∧
    (∀ r : MYSQL_RES, (mysql_result_fetch { result := some r }).ret =
      .ok (r.data_cursor.head?.map (fun row1 =>
        row_table r.fields.length r.fields row1 (mysql_fetch_lengths row1)))) ∧
    (∀ r : MYSQL_RES, ∃ tbl : ResultsTable,
      (mysql_result_fetch_all { result := some r }).ret = .ok tbl ∧
      ∀ (key : LuaKey) (t : RowTable), lua_gettable tbl key = some t →
        ∃ row1 ∈ r.data, t = row_table r.fields.length r.fields row1 (mysql_fetch_lengths row1)) ∧
    (∀ (tag : Int) (raw : String),
      (tag ∈ [MYSQL_TYPE_TINY, MYSQL_TYPE_SHORT, MYSQL_TYPE_LONG, MYSQL_TYPE_INT24,
          MYSQL_TYPE_LONGLONG] → converted_value tag raw = LuaValue.integer (atoll raw.data)) ∧
      (tag ∈ [MYSQL_TYPE_FLOAT, MYSQL_TYPE_DOUBLE, MYSQL_TYPE_DECIMAL, MYSQL_TYPE_NEWDECIMAL] →
        converted_value tag raw = LuaValue.number { atof := c_str raw.data }) ∧
      (tag ∉ [MYSQL_TYPE_TINY, MYSQL_TYPE_SHORT, MYSQL_TYPE_LONG, MYSQL_TYPE_INT24,
          MYSQL_TYPE_LONGLONG, MYSQL_TYPE_FLOAT, MYSQL_TYPE_DOUBLE, MYSQL_TYPE_DECIMAL,
          MYSQL_TYPE_NEWDECIMAL] → converted_value tag raw = LuaValue.string raw)) := by
  have hi : i < fields.length := by
    by_contra hc
    rw [List.getElem?_eq_none (by omega)] at hf
    exact Option.noConfusion hf
  refine ⟨⟨row_table_ordinal fields row i hi, row_table_name fields row i f hf⟩, ?_, ?_, ?_⟩
  · intro r
    obtain ⟨fs, data, cur⟩ := r
    cases cur <;> rfl
  · intro r
    refine ⟨_, rfl, ?_⟩
    intro key t h
    rcases fetch_all_loop_values _ _ _ _ _ key t h with h1 | h1
    · simpa [mysql_data_seek, mysql_num_fields, mysql_fetch_fields] using h1
    · simp [lua_gettable] at h1
  · intro tag raw
    refine ⟨?_, ?_, ?_⟩
    · intro h
      unfold converted_value
      rw [if_pos h]
    · intro h
      have h2 : tag ∉ [MYSQL_TYPE_TINY, MYSQL_TYPE_SHORT, MYSQL_TYPE_LONG, MYSQL_TYPE_INT24,
          MYSQL_TYPE_LONGLONG] := by
        simp only [List.mem_cons, List.mem_singleton, List.not_mem_nil, or_false] at h ⊢
        rcases h with h | h | h | h <;> subst h <;> decide
      unfold converted_value
      rw [if_neg h2, if_pos h]
    · intro h
      simp only [List.mem_cons, List.mem_singleton, List.not_mem_nil, or_false, not_or] at h
      unfold converted_value
      simp only [List.mem_cons, List.mem_singleton, List.not_mem_nil, or_false]
      simp [h]

theorem row_dual_keys_witness :
    lua_gettable (row_table 2
        [{ name := "id", type := MYSQL_TYPE_LONG, length := 11, max_length := 2, flags := 0 },
          { name := "note", type := MYSQL_TYPE_BLOB, length := 255, max_length := 3, flags := 0 }]
        [some "42", none] (mysql_fetch_lengths [some "42", none]))
      (LuaKey.str "id") = some (LuaValue.integer 42) :=
  ((row_dual_keys
    [{ name := "id", type := MYSQL_TYPE_LONG, length := 11, max_length := 2, flags := 0 },
      { name := "note", type := MYSQL_TYPE_BLOB, length := 255, max_length := 3, flags := 0 }]
    [some "42", none] 0
    { name := "id", type := MYSQL_TYPE_LONG, length := 11, max_length := 2, flags := 0 }
    (by decide)).1.2
    (by
      intro j g h1 h2
      match j, h1, h2 with
      | 1, _, h2 =>
        simp only [List.getElem?_cons_succ, List.getElem?_cons_zero, Option.some.injEq] at h2
        subst h2
        decide
      | j + 2, _, h2 => simp at h2))

/-- C1 (counterexample): a result with two columns both named "x" (as a join
returns) and the row ("1", "2"). Column 0 converts to the integer 1, but the
row table holds 2 under "x", the value of column 1. -/
theorem duplicate_column_name_overwrites :
    (mysql_result_fetch { result := some (mysql_store_result
        [{ name := "x", type := MYSQL_TYPE_LONG, length := 11, max_length := 1, flags := 0 },
          { name := "x", type := MYSQL_TYPE_LONG, length := 11, max_length := 1, flags := 0 }]
        [[some "1", some "2"]]) }).ret =
      .ok (some [(LuaKey.int 2, LuaValue.string "2"), (LuaKey.str "x", LuaValue.integer 2),
        (LuaKey.int 1, LuaValue.string "1")]) ∧
    lua_gettable [(LuaKey.int 2, LuaValue.string "2"), (LuaKey.str "x", LuaValue.integer 2),
        (LuaKey.int 1, LuaValue.string "1")] (LuaKey.str "x") = some (LuaValue.integer 2) ∧
    converted_value MYSQL_TYPE_LONG "1" = LuaValue.integer 1 ∧
    lua_gettable [(LuaKey.int 2, LuaValue.string "2"), (LuaKey.str "x", LuaValue.integer 2),
        (LuaKey.int 1, LuaValue.string "1")] (LuaKey.str "x") ≠
      some (converted_value MYSQL_TYPE_LONG "1") := by
  refine ⟨rfl, by decide, by decide, by decide⟩

/-! ## Row counts and the cursor -/

theorem mysql_conn_query_result (env : NativeReply) (p : Nat) (query : String)
    (fields : List MYSQL_FIELD) (data : List MYSQL_ROW) (h1 : env.mysql_query = 0)
    (h2 : env.mysql_store_result = some (fields, data)) :
    (mysql_conn_query env { handle := some p, connected := true } query).ret =
      .ok (ConnReturn.result { result := some (mysql_store_result fields data) }) := by
  simp [mysql_conn_query, h1, h2]

theorem strtoll_digits_eq (cs : List Char) (acc : Nat) :
    strtoll_digits cs acc =
      (cs.takeWhile isdigit).foldl (fun a c => 10 * a + (c.toNat - 48)) acc := by
  induction cs generalizing acc with
  | nil => rfl
  | cons c cs ih =>
    by_cases h : isdigit c = true
    · simp [strtoll_digits, List.takeWhile, h, ih]
    · simp [strtoll_digits, List.takeWhile, h]

theorem atoll_eq (s : List Char) :
    atoll s = strtoll_clamp (leading_numeric_value (s.dropWhile isspace)) := by
  unfold atoll leading_numeric_value decimal_value
  split <;> simp [strtoll_digits_eq]

theorem strtoll_clamp_range (v : Int) :
    LLONG_MIN ≤ strtoll_clamp v ∧ strtoll_clamp v ≤ LLONG_MAX := by
  unfold strtoll_clamp LLONG_MIN LLONG_MAX
  split_ifs <;> omega

theorem strtoll_clamp_of_range (v : Int) (h1 : LLONG_MIN ≤ v) (h2 : v ≤ LLONG_MAX) :
    strtoll_clamp v = v := by
  unfold strtoll_clamp
  unfold LLONG_MIN at h1
  unfold LLONG_MAX at h2
  unfold LLONG_MIN LLONG_MAX
  split_ifs <;> omega

theorem name_value_integer (tag : Int)
    (htag : tag ∈ [MYSQL_TYPE_TINY, MYSQL_TYPE_SHORT, MYSQL_TYPE_LONG, MYSQL_TYPE_INT24,
      MYSQL_TYPE_LONGLONG]) (s : String) (len : Nat) :
    name_value tag s len = LuaValue.integer (atoll s.data) := by
  simp only [List.mem_cons, List.mem_singleton, List.not_mem_nil, or_false] at htag
  unfold name_value
  rw [if_pos htag]

/-- C8 (amended): a non-null column with an integer-family tag always converts to
a Lua integer, the signed 64-bit value of atoll on the text. Whenever the
numeric prefix (optional sign, then decimal digits) that follows any leading
white space denotes an integer representable in 64 bits, that integer is the
result, and the result is 0 when there is no such prefix; "12abc" gives 12 and
"abc" gives 0. -/
theorem integer_conversion (tag : Int)
    (htag : tag ∈ [MYSQL_TYPE_TINY, MYSQL_TYPE_SHORT, MYSQL_TYPE_LONG, MYSQL_TYPE_INT24,
      MYSQL_TYPE_LONGLONG]) (s : String) (len : Nat) :
    name_value tag s len = LuaValue.integer (atoll s.data) ∧
    LLONG_MIN ≤ atoll s.data ∧ atoll s.data ≤ LLONG_MAX ∧
    (LLONG_MIN ≤ leading_numeric_value (s.data.dropWhile isspace) →
      leading_numeric_value (s.data.dropWhile isspace) ≤ LLONG_MAX →
      name_value tag s len =
        LuaValue.integer (leading_numeric_value (s.data.dropWhile isspace))) ∧
    name_value tag "12abc" 5 = LuaValue.integer 12 ∧
    name_value tag "abc" 3 = LuaValue.integer 0 := by
  refine ⟨name_value_integer tag htag s len, ?_, ?_, ?_, ?_, ?_⟩
  · rw [atoll_eq]; exact (strtoll_clamp_range _).1
  · rw [atoll_eq]; exact (strtoll_clamp_range _).2
  · intro h1 h2
    rw [name_value_integer tag htag s len, atoll_eq, strtoll_clamp_of_range _ h1 h2]
  · rw [name_value_integer tag htag]; decide
  · rw [name_value_integer tag htag]; decide

theorem integer_conversion_witness :
    MYSQL_TYPE_LONGLONG ∈ [MYSQL_TYPE_TINY, MYSQL_TYPE_SHORT, MYSQL_TYPE_LONG, MYSQL_TYPE_INT24,
      MYSQL_TYPE_LONGLONG] ∧
    name_value MYSQL_TYPE_LONGLONG "  -42 rows" 10 = LuaValue.integer (-42) :=
  ⟨by decide,
    (integer_conversion MYSQL_TYPE_LONGLONG (by decide) "  -42 rows" 10).2.2.2.1
      (by decide) (by decide)⟩

/-- C8 (counterexample): the text " 12" has no leading numeric prefix (it starts
with a blank), so the claim gives 0, but an INT column holding it converts
to 12. -/
theorem integer_conversion_leading_space :
    name_value MYSQL_TYPE_LONG " 12" 3 = LuaValue.integer 12 ∧
    leading_numeric_value " 12".data = 0 ∧
    name_value MYSQL_TYPE_LONG " 12" 3 ≠ LuaValue.integer (leading_numeric_value " 12".data) := by
  decide

end MySQLLib
